import Mathlib

/-!
# g2configmgrclient: a shallow embedding of the forwarding client

The Go package `g2configmgrclient` forwards each call to a gRPC stub, optionally
traces entry and exit, and optionally hands a notification to a hub of observers.

Conventions of the embedding:

* Go `error` values are `Option GoError` (`none` is `nil`).
* Go `int`, `int32` and `int64` are `Int`; the one narrowing conversion of the
  source, `int32(verboseLogging)`, is the explicit wrap-around `int32`.
* A nilable response pointer is an `Option`.
* Every call returns an `Outcome`: the returned value, the returned error, the
  list of observable effects in program order, and the client after the call.
* `time.Now()` readings are supplied by a `Clock`.
* The collaborators that live outside the repository (the gRPC stub, the observer
  hub, `json.Marshal`, the constant `ProductId`) are parameters.
-/

namespace G2configmgrclient

/-! ## Values shared with the collaborators -/

/-- Go error value that is not nil; `Error` is the text of `err.Error()`. -/
structure GoError where
  Error : String
  deriving DecidableEq, Repr

/-- Context handed through to the stub and to the hub unchanged. -/
structure Context where
  token : Nat
  deriving DecidableEq, Repr

/-- Observer identity, as in `observer.ObserverNull{Id: "Observer 1"}`. -/
structure Observer where
  Id : String
  deriving DecidableEq, Repr

/-- Log levels named by the documentation of `SetLogLevel`. -/
inductive Level where
  | TRACE | DEBUG | INFO | WARN | ERROR | FATAL | PANIC
  deriving DecidableEq, Repr

/-! ## Wire messages of the protocol package `pb` -/

structure AddConfigRequest where
  ConfigStr : String
  ConfigComments : String
  deriving DecidableEq, Repr

structure AddConfigResponse where
  Result : Int
  deriving DecidableEq, Repr

structure DestroyRequest where
  deriving DecidableEq, Repr

structure DestroyResponse where
  deriving DecidableEq, Repr

structure GetConfigRequest where
  ConfigID : Int
  deriving DecidableEq, Repr

structure GetConfigResponse where
  Result : String
  deriving DecidableEq, Repr

structure GetConfigListRequest where
  deriving DecidableEq, Repr

structure GetConfigListResponse where
  Result : String
  deriving DecidableEq, Repr

structure GetDefaultConfigIDRequest where
  deriving DecidableEq, Repr

structure GetDefaultConfigIDResponse where
  ConfigID : Int
  deriving DecidableEq, Repr

structure InitRequest where
  ModuleName : String
  IniParams : String
  VerboseLogging : Int
  deriving DecidableEq, Repr

structure InitResponse where
  deriving DecidableEq, Repr

structure ReplaceDefaultConfigIDRequest where
  OldConfigID : Int
  NewConfigID : Int
  deriving DecidableEq, Repr

structure ReplaceDefaultConfigIDResponse where
  deriving DecidableEq, Repr

structure SetDefaultConfigIDRequest where
  ConfigID : Int
  deriving DecidableEq, Repr

structure SetDefaultConfigIDResponse where
  deriving DecidableEq, Repr

/-- Modelled from the spec: the generated getter `(*AddConfigResponse).GetResult` of the
protocol package is not under src/; a missing response yields the zero identifier, so that
no output field is fabricated. -/
def AddConfigResponse.GetResult : Option AddConfigResponse → Int
  | some response => response.Result
  | none => 0

/-- Modelled from the spec: the generated getter `(*GetConfigResponse).GetResult` of the
protocol package is not under src/; a missing response yields the empty document. -/
def GetConfigResponse.GetResult : Option GetConfigResponse → String
  | some response => response.Result
  | none => ""

/-- Modelled from the spec: the generated getter `(*GetConfigListResponse).GetResult` of the
protocol package is not under src/; a missing response yields the empty document. -/
def GetConfigListResponse.GetResult : Option GetConfigListResponse → String
  | some response => response.Result
  | none => ""

/-- Modelled from the spec: the generated getter `(*GetDefaultConfigIDResponse).GetConfigID`
of the protocol package is not under src/; a missing response yields the zero identifier. -/
def GetDefaultConfigIDResponse.GetConfigID : Option GetDefaultConfigIDResponse → Int
  | some response => response.ConfigID
  | none => 0

/-- The stub interface `pb.G2ConfigMgrClient`: each remote procedure answers a request with
a nilable response and an error. -/
structure G2ConfigMgrClient where
  AddConfig : Context → AddConfigRequest → Option AddConfigResponse × Option GoError
  Destroy : Context → DestroyRequest → Option DestroyResponse × Option GoError
  GetConfig : Context → GetConfigRequest → Option GetConfigResponse × Option GoError
  GetConfigList :
    Context → GetConfigListRequest → Option GetConfigListResponse × Option GoError
  GetDefaultConfigID :
    Context → GetDefaultConfigIDRequest → Option GetDefaultConfigIDResponse × Option GoError
  Init : Context → InitRequest → Option InitResponse × Option GoError
  ReplaceDefaultConfigID :
    Context → ReplaceDefaultConfigIDRequest →
      Option ReplaceDefaultConfigIDResponse × Option GoError
  SetDefaultConfigID :
    Context → SetDefaultConfigIDRequest → Option SetDefaultConfigIDResponse × Option GoError

/-- A request as it reaches the stub, tagged by the remote procedure invoked. -/
inductive Request where
  | AddConfig (request : AddConfigRequest)
  | Destroy (request : DestroyRequest)
  | GetConfig (request : GetConfigRequest)
  | GetConfigList (request : GetConfigListRequest)
  | GetDefaultConfigID (request : GetDefaultConfigIDRequest)
  | Init (request : InitRequest)
  | ReplaceDefaultConfigID (request : ReplaceDefaultConfigIDRequest)
  | SetDefaultConfigID (request : SetDefaultConfigIDRequest)
  deriving DecidableEq, Repr

/-! ## Numbers and maps of the Go runtime -/

/-- Decimal text of an integer: `strconv.Itoa` and `strconv.FormatInt(_, 10)`. -/
def FormatInt (i : Int) : String :=
  if i < 0 then "-" ++ Nat.repr i.natAbs else Nat.repr i.natAbs

/-- The conversion `int32(v)` of a Go `int`: the low 32 bits, read as two's complement. -/
def int32 (v : Int) : Int :=
  (v + 2147483648) % 4294967296 - 2147483648

/-- Range of the Go type `int32`. -/
def isInt32 (v : Int) : Prop :=
  -2147483648 ≤ v ∧ v ≤ 2147483647

/-- Range of the Go types `int` (on 64-bit targets) and `int64`. -/
def isInt64 (v : Int) : Prop :=
  -9223372036854775808 ≤ v ∧ v ≤ 9223372036854775807

instance (v : Int) : Decidable (isInt32 v) := by
  unfold isInt32
  infer_instance

instance (v : Int) : Decidable (isInt64 v) := by
  unfold isInt64
  infer_instance

/-- A Go `map[string]string`, kept as a list of bindings with distinct keys. -/
abbrev Details := List (String × String)

/-- The assignment `details[key] = value`. -/
def setKey : Details → String → String → Details
  | [], key, value => [(key, value)]
  | (k, v) :: rest, key, value =>
    if k = key then (key, value) :: rest else (k, v) :: setKey rest key value

/-- The lookup `details[key]`, `none` when the key is absent. -/
def getKey : Details → String → Option String
  | [], _ => none
  | (k, v) :: rest, key => if k = key then some v else getKey rest key

/-! ## Effects and outcomes -/

/-- A value passed in the variadic `details ...interface{}` of a log call. -/
inductive Detail where
  | str (s : String)
  | int (i : Int)
  | err (e : Option GoError)
  | duration (nanoseconds : Int)
  | level (l : Level)
  deriving DecidableEq, Repr

/-- What one run of `notify` did: the map it serialized, and either the text it printed
(serialization failed) or the message it handed to the hub and the observers the hub
reports as updated. -/
structure Notification where
  ctx : Context
  details : Details
  printed : Option String
  message : Option String
  updated : List Observer
  deriving DecidableEq, Repr

/-- An observable effect of a call. -/
inductive Effect where
  | Log (errorNumber : Int) (details : List Detail)
  | Rpc (ctx : Context) (request : Request)
  | Go (notification : Notification)
  deriving DecidableEq, Repr

/-- The hub interface `subject.Subject` over a hub state `H`; its implementation lives
outside the repository and is a parameter. `create` is `&subject.SubjectImpl{}`. -/
structure Subject (H : Type) where
  create : H
  RegisterObserver : H → Context → Observer → H × Option GoError
  UnregisterObserver : H → Context → Observer → H × Option GoError
  HasObservers : H → Context → Bool
  NotifyObservers : H → Context → String → List Observer × Option GoError

/-- Logger handle, recording the arguments of `messagelogger.NewSenzingApiLogger`. -/
structure MessageLogger where
  productIdentifier : Int
  level : Level
  deriving DecidableEq, Repr

/-- Modelled from the spec: the declaration of the client struct is not under src/; the
client handle holds a transport connection handle, the trace flag, an optional logger and
an optional notification hub. -/
structure G2configmgrClient (H : Type) where
  GrpcClient : G2ConfigMgrClient
  isTrace : Bool
  logger : Option MessageLogger
  observers : Option H

/-- What is fixed outside the source file: the package constant `ProductId`,
`json.Marshal` on a string map, and the hub implementation. -/
structure Env (H : Type) where
  ProductId : Int
  Marshal : Details → Except GoError String
  subject : Subject H

/-- Readings of `time.Now()` in nanoseconds since the epoch: at entry, inside `notify`,
and where `time.Since(entryTime)` is evaluated. -/
structure Clock where
  entryTime : Int
  notifyTime : Int
  exitTime : Int
  deriving DecidableEq, Repr

/-- Result of a call that returns: value, error, effects in program order, client after. -/
structure Outcome (H α : Type) where
  value : α
  err : Option GoError
  effects : List Effect
  client : G2configmgrClient H

/-! ## Internal methods -/

/-- `getLogger`: create the logger on first use. -/
def getLogger {H : Type} (env : Env H) (client : G2configmgrClient H) :
    G2configmgrClient H × MessageLogger :=
  match client.logger with
  | some logger => (client, logger)
  | none =>
    let logger : MessageLogger := { productIdentifier := env.ProductId, level := Level.INFO }
    ({ client with logger := some logger }, logger)

/-- `notify`: complete the map, serialize it, and hand the text to the hub. -/
def notify {H : Type} (env : Env H) (hub : H) (now : Int) (ctx : Context) (messageId : Int)
    (err : Option GoError) (details : Details) : Notification :=
  let details := setKey details "subjectId" (FormatInt env.ProductId)
  let details := setKey details "messageId" (FormatInt messageId)
  let details := setKey details "messageTime" (FormatInt now)
  let details :=
    match err with
    | some e => setKey details "error" e.Error
    | none => details
  match env.Marshal details with
  | Except.error e =>
    { ctx := ctx, details := details, printed := some ("Error: " ++ e.Error),
      message := none, updated := [] }
  | Except.ok message =>
    { ctx := ctx, details := details, printed := none, message := some message,
      updated := (env.subject.NotifyObservers hub ctx message).1 }

/-- `traceEntry`: one `Log` call on the logger. -/
def traceEntry {H : Type} (env : Env H) (client : G2configmgrClient H) (errorNumber : Int)
    (details : List Detail) : G2configmgrClient H × List Effect :=
  ((getLogger env client).1, [Effect.Log errorNumber details])

/-- `traceExit`: one `Log` call on the logger. -/
def traceExit {H : Type} (env : Env H) (client : G2configmgrClient H) (errorNumber : Int)
    (details : List Detail) : G2configmgrClient H × List Effect :=
  ((getLogger env client).1, [Effect.Log errorNumber details])

/-- The block `if client.observers != nil { go func() { ... client.notify(...) }() }`. -/
def goNotify {H : Type} (env : Env H) (client : G2configmgrClient H) (clock : Clock)
    (ctx : Context) (messageId : Int) (err : Option GoError) (details : Details) :
    List Effect :=
  match client.observers with
  | some hub => [Effect.Go (notify env hub clock.notifyTime ctx messageId err details)]
  | none => []

/-- The block `if client.isTrace { client.traceEntry(...) }`. -/
def ifTraceEntry {H : Type} (env : Env H) (client : G2configmgrClient H) (errorNumber : Int)
    (details : List Detail) : G2configmgrClient H × List Effect :=
  if client.isTrace then traceEntry env client errorNumber details else (client, [])

/-- The block `if client.isTrace { defer client.traceExit(...) }`, run when the call
returns; its arguments are the values at the `defer` statement. -/
def ifTraceExit {H : Type} (env : Env H) (client : G2configmgrClient H) (errorNumber : Int)
    (details : List Detail) : G2configmgrClient H × List Effect :=
  if client.isTrace then traceExit env client errorNumber details else (client, [])

/-! ## Interface methods -/

/-- `AddConfig`: add a configuration document, returning its identifier. -/
def AddConfig {H : Type} (env : Env H) (client : G2configmgrClient H) (clock : Clock)
    (ctx : Context) (configStr : String) (configComments : String) : Outcome H Int :=
  let entry := ifTraceEntry env client 1 [Detail.str configStr, Detail.str configComments]
  let client := entry.1
  let entryTime := clock.entryTime
  let request : AddConfigRequest :=
    { ConfigStr := configStr, ConfigComments := configComments }
  let reply := client.GrpcClient.AddConfig ctx request
  let response := reply.1
  let err := reply.2
  let spawned := goNotify env client clock ctx 8001 err [("configComments", configComments)]
  let exit := ifTraceExit env client 2
    [Detail.str configStr, Detail.str configComments,
      Detail.int (AddConfigResponse.GetResult response), Detail.err err,
      Detail.duration (clock.exitTime - entryTime)]
  { value := AddConfigResponse.GetResult response, err := err,
    effects := entry.2 ++ [Effect.Rpc ctx (Request.AddConfig request)] ++ spawned ++ exit.2,
    client := exit.1 }

/-- `Destroy`: shut the remote object down. -/
def Destroy {H : Type} (env : Env H) (client : G2configmgrClient H) (clock : Clock)
    (ctx : Context) : Outcome H Unit :=
  let entry := ifTraceEntry env client 5 []
  let client := entry.1
  let entryTime := clock.entryTime
  let request : DestroyRequest := {}
  let reply := client.GrpcClient.Destroy ctx request
  let err := reply.2
  let spawned := goNotify env client clock ctx 8002 err []
  let exit := ifTraceExit env client 6
    [Detail.err err, Detail.duration (clock.exitTime - entryTime)]
  { value := (), err := err,
    effects := entry.2 ++ [Effect.Rpc ctx (Request.Destroy request)] ++ spawned ++ exit.2,
    client := exit.1 }

/-- `GetConfig`: fetch one configuration document. -/
def GetConfig {H : Type} (env : Env H) (client : G2configmgrClient H) (clock : Clock)
    (ctx : Context) (configID : Int) : Outcome H String :=
  let entry := ifTraceEntry env client 7 [Detail.int configID]
  let client := entry.1
  let entryTime := clock.entryTime
  let request : GetConfigRequest := { ConfigID := configID }
  let reply := client.GrpcClient.GetConfig ctx request
  let response := reply.1
  let err := reply.2
  let spawned := goNotify env client clock ctx 8003 err []
  let exit := ifTraceExit env client 8
    [Detail.int configID, Detail.str (GetConfigResponse.GetResult response), Detail.err err,
      Detail.duration (clock.exitTime - entryTime)]
  { value := GetConfigResponse.GetResult response, err := err,
    effects := entry.2 ++ [Effect.Rpc ctx (Request.GetConfig request)] ++ spawned ++ exit.2,
    client := exit.1 }

/-- `GetConfigList`: fetch the list of configurations. -/
def GetConfigList {H : Type} (env : Env H) (client : G2configmgrClient H) (clock : Clock)
    (ctx : Context) : Outcome H String :=
  let entry := ifTraceEntry env client 9 []
  let client := entry.1
  let entryTime := clock.entryTime
  let request : GetConfigListRequest := {}
  let reply := client.GrpcClient.GetConfigList ctx request
  let response := reply.1
  let err := reply.2
  let spawned := goNotify env client clock ctx 8004 err []
  let exit := ifTraceExit env client 10
    [Detail.str (GetConfigListResponse.GetResult response), Detail.err err,
      Detail.duration (clock.exitTime - entryTime)]
  { value := GetConfigListResponse.GetResult response, err := err,
    effects :=
      entry.2 ++ [Effect.Rpc ctx (Request.GetConfigList request)] ++ spawned ++ exit.2,
    client := exit.1 }

/-- `GetDefaultConfigID`: fetch the identifier of the default configuration. -/
def GetDefaultConfigID {H : Type} (env : Env H) (client : G2configmgrClient H)
    (clock : Clock) (ctx : Context) : Outcome H Int :=
  let entry := ifTraceEntry env client 11 []
  let client := entry.1
  let entryTime := clock.entryTime
  let request : GetDefaultConfigIDRequest := {}
  let reply := client.GrpcClient.GetDefaultConfigID ctx request
  let response := reply.1
  let err := reply.2
  let spawned := goNotify env client clock ctx 8005 err []
  let exit := ifTraceExit env client 12
    [Detail.int (GetDefaultConfigIDResponse.GetConfigID response), Detail.err err,
      Detail.duration (clock.exitTime - entryTime)]
  { value := GetDefaultConfigIDResponse.GetConfigID response, err := err,
    effects :=
      entry.2 ++ [Effect.Rpc ctx (Request.GetDefaultConfigID request)] ++ spawned ++ exit.2,
    client := exit.1 }

/-- `Init`: initialize the remote object. -/
def Init {H : Type} (env : Env H) (client : G2configmgrClient H) (clock : Clock)
    (ctx : Context) (moduleName : String) (iniParams : String) (verboseLogging : Int) :
    Outcome H Unit :=
  let entry := ifTraceEntry env client 17
    [Detail.str moduleName, Detail.str iniParams, Detail.int verboseLogging]
  let client := entry.1
  let entryTime := clock.entryTime
  let request : InitRequest :=
    { ModuleName := moduleName, IniParams := iniParams,
      VerboseLogging := int32 verboseLogging }
  let reply := client.GrpcClient.Init ctx request
  let err := reply.2
  let spawned := goNotify env client clock ctx 8006 err
    [("iniParams", iniParams), ("moduleName", moduleName),
      ("verboseLogging", FormatInt verboseLogging)]
  let exit := ifTraceExit env client 18
    [Detail.str moduleName, Detail.str iniParams, Detail.int verboseLogging, Detail.err err,
      Detail.duration (clock.exitTime - entryTime)]
  { value := (), err := err,
    effects := entry.2 ++ [Effect.Rpc ctx (Request.Init request)] ++ spawned ++ exit.2,
    client := exit.1 }

/-- `RegisterObserver`: create the hub when absent, then register with the hub. -/
def RegisterObserver {H : Type} (env : Env H) (client : G2configmgrClient H) (ctx : Context)
    (observer : Observer) : Outcome H Unit :=
  let hub : H :=
    match client.observers with
    | none => env.subject.create
    | some hub => hub
  let registered := env.subject.RegisterObserver hub ctx observer
  { value := (), err := registered.2, effects := [],
    client := { client with observers := some registered.1 } }

/-- `ReplaceDefaultConfigID`: compare-and-swap of the default configuration identifier. -/
def ReplaceDefaultConfigID {H : Type} (env : Env H) (client : G2configmgrClient H)
    (clock : Clock) (ctx : Context) (oldConfigID : Int) (newConfigID : Int) :
    Outcome H Unit :=
  let entry := ifTraceEntry env client 19 [Detail.int oldConfigID, Detail.int newConfigID]
  let client := entry.1
  let entryTime := clock.entryTime
  let request : ReplaceDefaultConfigIDRequest :=
    { OldConfigID := oldConfigID, NewConfigID := newConfigID }
  let reply := client.GrpcClient.ReplaceDefaultConfigID ctx request
  let err := reply.2
  let spawned := goNotify env client clock ctx 8007 err
    [("newConfigID", FormatInt newConfigID)]
  let exit := ifTraceExit env client 20
    [Detail.int oldConfigID, Detail.int newConfigID, Detail.err err,
      Detail.duration (clock.exitTime - entryTime)]
  { value := (), err := err,
    effects :=
      entry.2 ++ [Effect.Rpc ctx (Request.ReplaceDefaultConfigID request)] ++ spawned
        ++ exit.2,
    client := exit.1 }

/-- `SetDefaultConfigID`: set the default configuration identifier. -/
def SetDefaultConfigID {H : Type} (env : Env H) (client : G2configmgrClient H)
    (clock : Clock) (ctx : Context) (configID : Int) : Outcome H Unit :=
  let entry := ifTraceEntry env client 21 [Detail.int configID]
  let client := entry.1
  let entryTime := clock.entryTime
  let request : SetDefaultConfigIDRequest := { ConfigID := configID }
  let reply := client.GrpcClient.SetDefaultConfigID ctx request
  let err := reply.2
  let spawned := goNotify env client clock ctx 8008 err [("configID", FormatInt configID)]
  let exit := ifTraceExit env client 22
    [Detail.int configID, Detail.err err, Detail.duration (clock.exitTime - entryTime)]
  { value := (), err := err,
    effects :=
      entry.2 ++ [Effect.Rpc ctx (Request.SetDefaultConfigID request)] ++ spawned ++ exit.2,
    client := exit.1 }

/-- `SetLogLevel`: accepts a level and returns nil. -/
def SetLogLevel {H : Type} (env : Env H) (client : G2configmgrClient H) (clock : Clock)
    (_ctx : Context) (logLevel : Level) : Outcome H Unit :=
  let entry := ifTraceEntry env client 23 [Detail.level logLevel]
  let client := entry.1
  let entryTime := clock.entryTime
  let err : Option GoError := none
  let exit := ifTraceExit env client 24
    [Detail.level logLevel, Detail.err err, Detail.duration (clock.exitTime - entryTime)]
  { value := (), err := err, effects := entry.2 ++ exit.2, client := exit.1 }

/-- `UnregisterObserver`: unregister with the hub, and drop the hub once it reports no
observers. The hub is used without a nil check, so a call on a client without a hub
panics (`Except.error`) instead of returning. -/
def UnregisterObserver {H : Type} (env : Env H) (client : G2configmgrClient H)
    (ctx : Context) (observer : Observer) : Except String (Outcome H Unit) :=
  match client.observers with
  | none => Except.error "invalid memory address or nil pointer dereference"
  | some hub =>
    let unregistered := env.subject.UnregisterObserver hub ctx observer
    let client := { client with observers := some unregistered.1 }
    match unregistered.2 with
    | some e => Except.ok { value := (), err := some e, effects := [], client := client }
    | none =>
      if !env.subject.HasObservers unregistered.1 ctx then
        Except.ok
          { value := (), err := none, effects := [],
            client := { client with observers := none } }
      else
        Except.ok { value := (), err := none, effects := [], client := client }

/-! ## Reading the effects of a call -/

/-- The requests that reached the stub, in order. -/
def rpcs : List Effect → List (Context × Request)
  | [] => []
  | Effect.Rpc ctx request :: rest => (ctx, request) :: rpcs rest
  | _ :: rest => rpcs rest

/-- The message identifiers of the log calls, in order. -/
def logIds : List Effect → List Int
  | [] => []
  | Effect.Log errorNumber _ :: rest => errorNumber :: logIds rest
  | _ :: rest => logIds rest

/-- The notifications spawned, in order. -/
def notifications : List Effect → List Notification
  | [] => []
  | Effect.Go notification :: rest => notification :: notifications rest
  | _ :: rest => notifications rest

/-! ## The hub and the life of a client -/

/-- Modelled from the spec: the hub implementation `subject.SubjectImpl` is not under src/;
the listener registration set is a collection of listener identities with unique membership,
listeners are added and removed by explicit calls that succeed, the hub has observers
exactly when the set is not empty, and a notification goes to every registered listener. -/
def SubjectImpl : Subject (List Observer) where
  create := []
  RegisterObserver := fun hub _ observer =>
    (if observer ∈ hub then hub else hub ++ [observer], none)
  UnregisterObserver := fun hub _ observer => (hub.filter (fun o => o ≠ observer), none)
  HasObservers := fun hub _ => !hub.isEmpty
  NotifyObservers := fun hub _ _ => (hub, none)

/-- A client as the entry point builds it, `&G2configmgr{GrpcClient: ...}`: no logger and
no hub. The unexported trace flag is left open. -/
def newClient {H : Type} (grpcClient : G2ConfigMgrClient) (isTrace : Bool) :
    G2configmgrClient H :=
  { GrpcClient := grpcClient, isTrace := isTrace, logger := none, observers := none }

/-- The fields every notification payload carries: subject identifier, message identifier,
timestamp, and the error text exactly when the call's error is not nil. -/
def hasCommonFields {H : Type} (env : Env H) (clock : Clock) (messageId : String)
    (err : Option GoError) (notification : Notification) : Prop :=
  getKey notification.details "subjectId" = some (FormatInt env.ProductId) ∧
  getKey notification.details "messageId" = some messageId ∧
  getKey notification.details "messageTime" = some (FormatInt clock.notifyTime) ∧
  getKey notification.details "error" = Option.map GoError.Error err

/-- The message identifier carried by the first notification among the effects. -/
def messageIdOf (effects : List Effect) : Option String :=
  match notifications effects with
  | [] => none
  | notification :: _ => getKey notification.details "messageId"

/-! ## Sample collaborators -/

/-- A stub that answers every request with no response and the error `e`. -/
def failingStub (e : GoError) : G2ConfigMgrClient where
  AddConfig := fun _ _ => (none, some e)
  Destroy := fun _ _ => (none, some e)
  GetConfig := fun _ _ => (none, some e)
  GetConfigList := fun _ _ => (none, some e)
  GetDefaultConfigID := fun _ _ => (none, some e)
  Init := fun _ _ => (none, some e)
  ReplaceDefaultConfigID := fun _ _ => (none, some e)
  SetDefaultConfigID := fun _ _ => (none, some e)

/-- A stub that accepts every request and answers with fixed values and no error. -/
def acceptingStub (identifier : Int) (document : String) : G2ConfigMgrClient where
  AddConfig := fun _ _ => (some { Result := identifier }, none)
  Destroy := fun _ _ => (some {}, none)
  GetConfig := fun _ _ => (some { Result := document }, none)
  GetConfigList := fun _ _ => (some { Result := document }, none)
  GetDefaultConfigID := fun _ _ => (some { ConfigID := identifier }, none)
  Init := fun _ _ => (some {}, none)
  ReplaceDefaultConfigID := fun _ _ => (some {}, none)
  SetDefaultConfigID := fun _ _ => (some {}, none)

/-- A sample environment: a product identifier, a serializer that writes the bindings one
after the other, and the hub `SubjectImpl`. -/
def sampleEnv : Env (List Observer) where
  ProductId := 6012
  Marshal := fun details =>
    Except.ok
      (String.intercalate "," (details.map (fun binding => binding.1 ++ ":" ++ binding.2)))
  subject := SubjectImpl

/-- A sample clock. -/
def sampleClock : Clock :=
  { entryTime := 1000, notifyTime := 1500, exitTime := 2000 }

/-- Two sample observers, as in the entry point. -/
def observer1 : Observer := { Id := "Observer 1" }

/-- The second sample observer. -/
def observer2 : Observer := { Id := "Observer 2" }

/-- A sample hub that refuses to unregister a listener it does not hold: that call returns
an error and leaves the set as it was. Otherwise it behaves as `SubjectImpl`. -/
def strictSubject : Subject (List Observer) where
  create := []
  RegisterObserver := SubjectImpl.RegisterObserver
  UnregisterObserver := fun hub ctx observer =>
    if observer ∈ hub then SubjectImpl.UnregisterObserver hub ctx observer
    else (hub, some { Error := "observer not registered" })
  HasObservers := SubjectImpl.HasObservers
  NotifyObservers := SubjectImpl.NotifyObservers

/-- The sample environment with the hub `strictSubject`. -/
def strictEnv : Env (List Observer) :=
  { sampleEnv with subject := strictSubject }

@[simp] theorem ifTraceEntry_GrpcClient {H : Type} (env : Env H) (client : G2configmgrClient H)
    (n : Int) (d : List Detail) :
    (ifTraceEntry env client n d).1.GrpcClient = client.GrpcClient := by
  unfold ifTraceEntry traceEntry getLogger
  cases client.isTrace <;> cases client.logger <;> simp

@[simp] theorem ifTraceEntry_isTrace {H : Type} (env : Env H) (client : G2configmgrClient H)
    (n : Int) (d : List Detail) :
    (ifTraceEntry env client n d).1.isTrace = client.isTrace := by
  unfold ifTraceEntry traceEntry getLogger
  cases h : client.isTrace <;> cases client.logger <;> simp [h]

@[simp] theorem ifTraceEntry_observers {H : Type} (env : Env H) (client : G2configmgrClient H)
    (n : Int) (d : List Detail) :
    (ifTraceEntry env client n d).1.observers = client.observers := by
  unfold ifTraceEntry traceEntry getLogger
  cases client.isTrace <;> cases client.logger <;> simp

@[simp] theorem ifTraceEntry_effects {H : Type} (env : Env H) (client : G2configmgrClient H)
    (n : Int) (d : List Detail) :
    (ifTraceEntry env client n d).2 = if client.isTrace then [Effect.Log n d] else [] := by
  unfold ifTraceEntry traceEntry
  cases client.isTrace <;> simp

@[simp] theorem ifTraceExit_GrpcClient {H : Type} (env : Env H) (client : G2configmgrClient H)
    (n : Int) (d : List Detail) :
    (ifTraceExit env client n d).1.GrpcClient = client.GrpcClient := by
  unfold ifTraceExit traceExit getLogger
  cases client.isTrace <;> cases client.logger <;> simp

@[simp] theorem ifTraceExit_isTrace {H : Type} (env : Env H) (client : G2configmgrClient H)
    (n : Int) (d : List Detail) :
    (ifTraceExit env client n d).1.isTrace = client.isTrace := by
  unfold ifTraceExit traceExit getLogger
  cases h : client.isTrace <;> cases client.logger <;> simp [h]

@[simp] theorem ifTraceExit_observers {H : Type} (env : Env H) (client : G2configmgrClient H)
    (n : Int) (d : List Detail) :
    (ifTraceExit env client n d).1.observers = client.observers := by
  unfold ifTraceExit traceExit getLogger
  cases client.isTrace <;> cases client.logger <;> simp

@[simp] theorem ifTraceExit_effects {H : Type} (env : Env H) (client : G2configmgrClient H)
    (n : Int) (d : List Detail) :
    (ifTraceExit env client n d).2 = if client.isTrace then [Effect.Log n d] else [] := by
  unfold ifTraceExit traceExit
  cases client.isTrace <;> simp

theorem goNotify_eq {H : Type} (env : Env H) (client : G2configmgrClient H) (clock : Clock)
    (ctx : Context) (messageId : Int) (err : Option GoError) (details : Details) :
    goNotify env client clock ctx messageId err details
      = match client.observers with
        | some hub => [Effect.Go (notify env hub clock.notifyTime ctx messageId err details)]
        | none => [] := rfl

@[simp] theorem rpcs_append (xs ys : List Effect) : rpcs (xs ++ ys) = rpcs xs ++ rpcs ys := by
  induction xs with
  | nil => rfl
  | cons x xs ih => cases x <;> simp [rpcs, ih]

@[simp] theorem logIds_append (xs ys : List Effect) :
    logIds (xs ++ ys) = logIds xs ++ logIds ys := by
  induction xs with
  | nil => rfl
  | cons x xs ih => cases x <;> simp [logIds, ih]

@[simp] theorem notifications_append (xs ys : List Effect) :
    notifications (xs ++ ys) = notifications xs ++ notifications ys := by
  induction xs with
  | nil => rfl
  | cons x xs ih => cases x <;> simp [notifications, ih]

@[simp] theorem rpcs_goNotify {H : Type} (env : Env H) (client : G2configmgrClient H)
    (clock : Clock) (ctx : Context) (messageId : Int) (err : Option GoError)
    (details : Details) : rpcs (goNotify env client clock ctx messageId err details) = [] := by
  unfold goNotify
  cases client.observers <;> simp [rpcs]

@[simp] theorem logIds_goNotify {H : Type} (env : Env H) (client : G2configmgrClient H)
    (clock : Clock) (ctx : Context) (messageId : Int) (err : Option GoError)
    (details : Details) :
    logIds (goNotify env client clock ctx messageId err details) = [] := by
  unfold goNotify
  cases client.observers <;> simp [logIds]

@[simp] theorem rpcs_ifThenLog (b : Bool) (n : Int) (d : List Detail) :
    rpcs (if b = true then [Effect.Log n d] else []) = [] := by
  cases b <;> simp [rpcs]

@[simp] theorem notifications_ifThenLog (b : Bool) (n : Int) (d : List Detail) :
    notifications (if b = true then [Effect.Log n d] else []) = [] := by
  cases b <;> simp [notifications]

@[simp] theorem logIds_ifThenLog (b : Bool) (n : Int) (d : List Detail) :
    logIds (if b = true then [Effect.Log n d] else []) = if b = true then [n] else [] := by
  cases b <;> simp [logIds]

theorem getKey_setKey_same (details : Details) (key value : String) :
    getKey (setKey details key value) key = some value := by
  induction details with
  | nil => simp [setKey, getKey]
  | cons binding rest ih =>
    obtain ⟨k, v⟩ := binding
    by_cases h : k = key <;> simp [setKey, getKey, h, ih]

theorem getKey_setKey_other (details : Details) (key value other : String) (h : key ≠ other) :
    getKey (setKey details key value) other = getKey details other := by
  induction details with
  | nil => simp [setKey, getKey, h]
  | cons binding rest ih =>
    obtain ⟨k, v⟩ := binding
    by_cases hk : k = key
    · subst hk
      simp [setKey, getKey, h]
    · simp [setKey, getKey, hk, ih]

/-! ## C1 to C5: what a forwarding call returns and sends -/

/-- C1: each of the eight forwarding operations returns exactly the error of the transport
(nil when the transport's error is nil), and when the transport gives no response the value
returned is the zero value: 0 for identifiers, the empty string for documents. -/
theorem forwarding_returns_transport_error {H : Type} (env : Env H)
    (client : G2configmgrClient H) (clock : Clock) (ctx : Context)
    (configStr configComments moduleName iniParams : String)
    (configID oldConfigID newConfigID verboseLogging : Int) :
    ((AddConfig env client clock ctx configStr configComments).err
        = (client.GrpcClient.AddConfig ctx
            { ConfigStr := configStr, ConfigComments := configComments }).2)
    ∧ ((Destroy env client clock ctx).err = (client.GrpcClient.Destroy ctx {}).2)
    ∧ ((GetConfig env client clock ctx configID).err
        = (client.GrpcClient.GetConfig ctx { ConfigID := configID }).2)
    ∧ ((GetConfigList env client clock ctx).err = (client.GrpcClient.GetConfigList ctx {}).2)
    ∧ ((GetDefaultConfigID env client clock ctx).err
        = (client.GrpcClient.GetDefaultConfigID ctx {}).2)
    ∧ ((Init env client clock ctx moduleName iniParams verboseLogging).err
        = (client.GrpcClient.Init ctx
            { ModuleName := moduleName, IniParams := iniParams,
              VerboseLogging := int32 verboseLogging }).2)
    ∧ ((ReplaceDefaultConfigID env client clock ctx oldConfigID newConfigID).err
        = (client.GrpcClient.ReplaceDefaultConfigID ctx
            { OldConfigID := oldConfigID, NewConfigID := newConfigID }).2)
    ∧ ((SetDefaultConfigID env client clock ctx configID).err
        = (client.GrpcClient.SetDefaultConfigID ctx { ConfigID := configID }).2)
    ∧ ((client.GrpcClient.AddConfig ctx
            { ConfigStr := configStr, ConfigComments := configComments }).1 = none →
        (AddConfig env client clock ctx configStr configComments).value = 0)
    ∧ ((client.GrpcClient.GetConfig ctx { ConfigID := configID }).1 = none →
        (GetConfig env client clock ctx configID).value = "")
    ∧ ((client.GrpcClient.GetConfigList ctx {}).1 = none →
        (GetConfigList env client clock ctx).value = "")
    ∧ ((client.GrpcClient.GetDefaultConfigID ctx {}).1 = none →
        (GetDefaultConfigID env client clock ctx).value = 0) := by
  refine ⟨?_, ?_, ?_, ?_, ?_, ?_, ?_, ?_, ?_, ?_, ?_, ?_⟩
  · simp [AddConfig]
  · simp [Destroy]
  · simp [GetConfig]
  · simp [GetConfigList]
  · simp [GetDefaultConfigID]
  · simp [Init]
  · simp [ReplaceDefaultConfigID]
  · simp [SetDefaultConfigID]
  · intro h
    simp [AddConfig, h, AddConfigResponse.GetResult]
  · intro h
    simp [GetConfig, h, GetConfigResponse.GetResult]
  · intro h
    simp [GetConfigList, h, GetConfigListResponse.GetResult]
  · intro h
    simp [GetDefaultConfigID, h, GetDefaultConfigIDResponse.GetConfigID]

/-- Witness of C1 on a client whose stub fails every request with no response. -/
theorem forwarding_returns_transport_error_witness :
    (AddConfig sampleEnv (newClient (failingStub { Error := "unavailable" }) true) sampleClock
        { token := 0 } "document" "comment").err = some { Error := "unavailable" }
    ∧ (AddConfig sampleEnv (newClient (failingStub { Error := "unavailable" }) true)
        sampleClock { token := 0 } "document" "comment").value = 0
    ∧ (GetConfig sampleEnv (newClient (failingStub { Error := "unavailable" }) true)
        sampleClock { token := 0 } 5).value = ""
    ∧ (GetConfigList sampleEnv (newClient (failingStub { Error := "unavailable" }) true)
        sampleClock { token := 0 }).value = ""
    ∧ (GetDefaultConfigID sampleEnv (newClient (failingStub { Error := "unavailable" }) true)
        sampleClock { token := 0 }).value = 0 := by
  have h := forwarding_returns_transport_error sampleEnv
    (newClient (failingStub { Error := "unavailable" }) true) sampleClock { token := 0 }
    "document" "comment" "module" "params" 5 6 7 1
  exact ⟨h.1, h.2.2.2.2.2.2.2.2.1 rfl, h.2.2.2.2.2.2.2.2.2.1 rfl,
    h.2.2.2.2.2.2.2.2.2.2.1 rfl, h.2.2.2.2.2.2.2.2.2.2.2 rfl⟩

/-- C2: the value returned by each value-returning operation is the corresponding field of
the transport's response (Result for AddConfig, GetConfig and GetConfigList, ConfigID for
GetDefaultConfigID), whatever the inputs, the trace flag and the listener hub are. -/
theorem returned_value_is_response_field {H : Type} (env : Env H)
    (client : G2configmgrClient H) (clock : Clock) (ctx : Context)
    (configStr configComments : String) (configID : Int)
    (added : AddConfigResponse) (got : GetConfigResponse) (listed : GetConfigListResponse)
    (current : GetDefaultConfigIDResponse) :
    ((client.GrpcClient.AddConfig ctx
          { ConfigStr := configStr, ConfigComments := configComments }).1 = some added →
        (AddConfig env client clock ctx configStr configComments).value = added.Result)
    ∧ ((client.GrpcClient.GetConfig ctx { ConfigID := configID }).1 = some got →
        (GetConfig env client clock ctx configID).value = got.Result)
    ∧ ((client.GrpcClient.GetConfigList ctx {}).1 = some listed →
        (GetConfigList env client clock ctx).value = listed.Result)
    ∧ ((client.GrpcClient.GetDefaultConfigID ctx {}).1 = some current →
        (GetDefaultConfigID env client clock ctx).value = current.ConfigID) := by
  refine ⟨?_, ?_, ?_, ?_⟩
  · intro h
    simp [AddConfig, h, AddConfigResponse.GetResult]
  · intro h
    simp [GetConfig, h, GetConfigResponse.GetResult]
  · intro h
    simp [GetConfigList, h, GetConfigListResponse.GetResult]
  · intro h
    simp [GetDefaultConfigID, h, GetDefaultConfigIDResponse.GetConfigID]

/-- Witness of C2 on a client whose stub answers identifier 7 and document "doc". -/
theorem returned_value_is_response_field_witness :
    (AddConfig sampleEnv (newClient (acceptingStub 7 "doc") false) sampleClock { token := 0 }
        "document" "comment").value = 7
    ∧ (GetConfig sampleEnv (newClient (acceptingStub 7 "doc") false) sampleClock
        { token := 0 } 5).value = "doc"
    ∧ (GetConfigList sampleEnv (newClient (acceptingStub 7 "doc") false) sampleClock
        { token := 0 }).value = "doc"
    ∧ (GetDefaultConfigID sampleEnv (newClient (acceptingStub 7 "doc") false) sampleClock
        { token := 0 }).value = 7 := by
  have h := returned_value_is_response_field sampleEnv
    (newClient (acceptingStub 7 "doc") false) sampleClock { token := 0 } "document" "comment" 5
    { Result := 7 } { Result := "doc" } { Result := "doc" } { ConfigID := 7 }
  exact ⟨h.1 rfl, h.2.1 rfl, h.2.2.1 rfl, h.2.2.2 rfl⟩

/-- C3, as stated, fails: verboseLogging = 2147483648 is a 64-bit Go int, the request sent
by Init carries VerboseLogging = -2147483648, while the notification payload carries the
decimal text of 2147483648. -/
theorem init_verboseLogging_not_verbatim :
    isInt64 2147483648
    ∧ ∃ request notification,
        rpcs (Init sampleEnv
            { GrpcClient := acceptingStub 7 "doc", isTrace := false, logger := none,
              observers := some [observer1] }
            sampleClock { token := 0 } "module" "params" 2147483648).effects
          = [({ token := 0 }, Request.Init request)]
        ∧ request.VerboseLogging = -2147483648
        ∧ request.VerboseLogging ≠ 2147483648
        ∧ notifications (Init sampleEnv
            { GrpcClient := acceptingStub 7 "doc", isTrace := false, logger := none,
              observers := some [observer1] }
            sampleClock { token := 0 } "module" "params" 2147483648).effects
          = [notification]
        ∧ getKey notification.details "verboseLogging" = some "2147483648" := by
  refine ⟨by decide, _, _, rfl, ?_, ?_, rfl, ?_⟩
  · decide
  · decide
  · decide

theorem notify_details {H : Type} (env : Env H) (hub : H) (now : Int) (ctx : Context)
    (messageId : Int) (err : Option GoError) (details : Details) :
    (notify env hub now ctx messageId err details).details
      = match err with
        | some e =>
          setKey (setKey (setKey (setKey details "subjectId" (FormatInt env.ProductId))
            "messageId" (FormatInt messageId)) "messageTime" (FormatInt now)) "error" e.Error
        | none =>
          setKey (setKey (setKey details "subjectId" (FormatInt env.ProductId))
            "messageId" (FormatInt messageId)) "messageTime" (FormatInt now) := by
  unfold notify
  dsimp only
  split <;> rfl

theorem notify_keeps_field {H : Type} (env : Env H) (hub : H) (now : Int) (ctx : Context)
    (messageId : Int) (err : Option GoError) (details : Details) (key : String)
    (h1 : "subjectId" ≠ key) (h2 : "messageId" ≠ key) (h3 : "messageTime" ≠ key)
    (h4 : "error" ≠ key) :
    getKey (notify env hub now ctx messageId err details).details key = getKey details key := by
  rw [notify_details]
  cases err <;> simp [getKey_setKey_other, h1, h2, h3, h4]

theorem notify_common_fields {H : Type} (env : Env H) (hub : H) (clock : Clock)
    (ctx : Context) (messageId : Int) (err : Option GoError) (details : Details)
    (h : getKey details "error" = none) :
    hasCommonFields env clock (FormatInt messageId) err
      (notify env hub clock.notifyTime ctx messageId err details) := by
  unfold hasCommonFields
  rw [notify_details]
  cases err <;> simp [getKey_setKey_other, getKey_setKey_same, h]

theorem int32_of_isInt32 (v : Int) (h : isInt32 v) : int32 v = v := by
  unfold isInt32 at h
  unfold int32
  omega

/-- C3, amended: for every verboseLogging in the int32 range the request sent by Init
carries VerboseLogging = verboseLogging together with the module name and the parameters
as given, and every notification payload of the call carries the decimal text of
verboseLogging. -/
theorem init_verboseLogging_within_int32 {H : Type} (env : Env H)
    (client : G2configmgrClient H) (clock : Clock) (ctx : Context)
    (moduleName iniParams : String) (verboseLogging : Int) (h : isInt32 verboseLogging) :
    rpcs (Init env client clock ctx moduleName iniParams verboseLogging).effects
      = [(ctx, Request.Init
          { ModuleName := moduleName, IniParams := iniParams,
            VerboseLogging := verboseLogging })]
    ∧ ∀ notification ∈
        notifications (Init env client clock ctx moduleName iniParams verboseLogging).effects,
        getKey notification.details "verboseLogging" = some (FormatInt verboseLogging) := by
  constructor
  · simp [Init, rpcs, int32_of_isInt32 verboseLogging h]
  · intro notification hmem
    simp only [Init, notifications_append, ifTraceEntry_effects, ifTraceExit_effects,
      notifications_ifThenLog, notifications, List.nil_append, List.append_nil,
      goNotify_eq, ifTraceEntry_observers] at hmem
    cases hobs : client.observers with
    | none => simp [hobs, notifications] at hmem
    | some hub =>
      simp only [hobs, notifications, List.mem_singleton] at hmem
      subst hmem
      rw [notify_keeps_field _ _ _ _ _ _ _ _ (by decide) (by decide) (by decide) (by decide)]
      simp [getKey]

/-- Witness of the amended C3 at verboseLogging = 1 on a client with one observer. -/
theorem init_verboseLogging_within_int32_witness :
    isInt32 1
    ∧ rpcs (Init sampleEnv
          { GrpcClient := acceptingStub 7 "doc", isTrace := true, logger := none,
            observers := some [observer1] }
          sampleClock { token := 0 } "module" "params" 1).effects
        = [({ token := 0 }, Request.Init
            { ModuleName := "module", IniParams := "params", VerboseLogging := 1 })] := by
  have h := init_verboseLogging_within_int32 sampleEnv
    { GrpcClient := acceptingStub 7 "doc", isTrace := true, logger := none,
      observers := some [observer1] }
    sampleClock { token := 0 } "module" "params" 1 (by decide)
  exact ⟨by decide, h.1⟩

/-- C4: every forwarding call invokes the transport exactly once, with the caller's
context and a request that carries the string and identifier inputs unchanged (the old and
the new identifier not swapped), whatever the inputs are. -/
theorem request_carries_inputs {H : Type} (env : Env H) (client : G2configmgrClient H)
    (clock : Clock) (ctx : Context) (configStr configComments moduleName iniParams : String)
    (configID oldConfigID newConfigID verboseLogging : Int) :
    rpcs (AddConfig env client clock ctx configStr configComments).effects
      = [(ctx, Request.AddConfig
          { ConfigStr := configStr, ConfigComments := configComments })]
    ∧ rpcs (Destroy env client clock ctx).effects = [(ctx, Request.Destroy {})]
    ∧ rpcs (GetConfig env client clock ctx configID).effects
      = [(ctx, Request.GetConfig { ConfigID := configID })]
    ∧ rpcs (GetConfigList env client clock ctx).effects = [(ctx, Request.GetConfigList {})]
    ∧ rpcs (GetDefaultConfigID env client clock ctx).effects
      = [(ctx, Request.GetDefaultConfigID {})]
    ∧ (∃ sent, rpcs (Init env client clock ctx moduleName iniParams verboseLogging).effects
          = [(ctx, Request.Init sent)]
        ∧ sent.ModuleName = moduleName ∧ sent.IniParams = iniParams)
    ∧ rpcs (ReplaceDefaultConfigID env client clock ctx oldConfigID newConfigID).effects
      = [(ctx, Request.ReplaceDefaultConfigID
          { OldConfigID := oldConfigID, NewConfigID := newConfigID })]
    ∧ rpcs (SetDefaultConfigID env client clock ctx configID).effects
      = [(ctx, Request.SetDefaultConfigID { ConfigID := configID })] := by
  refine ⟨?_, ?_, ?_, ?_, ?_, ?_, ?_, ?_⟩
  · simp [AddConfig, rpcs]
  · simp [Destroy, rpcs]
  · simp [GetConfig, rpcs]
  · simp [GetConfigList, rpcs]
  · simp [GetDefaultConfigID, rpcs]
  · exact ⟨⟨moduleName, iniParams, int32 verboseLogging⟩, by simp [Init, rpcs], rfl, rfl⟩
  · simp [ReplaceDefaultConfigID, rpcs]
  · simp [SetDefaultConfigID, rpcs]

/-- C5: two runs of a forwarding operation on the same transport, trace flag, logger and
inputs return the same value and the same error, whatever the two hubs are (absent or
present), whatever the hub implementations deliver, and whether serialization of the
notification fails or succeeds. -/
theorem notification_never_affects_outcome {H₁ H₂ : Type} (env₁ : Env H₁) (env₂ : Env H₂)
    (grpcClient : G2ConfigMgrClient) (isTrace : Bool) (logger : Option MessageLogger)
    (hub₁ : Option H₁) (hub₂ : Option H₂) (clock₁ clock₂ : Clock) (ctx : Context)
    (configStr configComments moduleName iniParams : String)
    (configID oldConfigID newConfigID verboseLogging : Int) :
    ((AddConfig env₁ ⟨grpcClient, isTrace, logger, hub₁⟩ clock₁ ctx configStr
          configComments).value
        = (AddConfig env₂ ⟨grpcClient, isTrace, logger, hub₂⟩ clock₂ ctx configStr
          configComments).value
      ∧ (AddConfig env₁ ⟨grpcClient, isTrace, logger, hub₁⟩ clock₁ ctx configStr
          configComments).err
        = (AddConfig env₂ ⟨grpcClient, isTrace, logger, hub₂⟩ clock₂ ctx configStr
          configComments).err)
    ∧ ((Destroy env₁ ⟨grpcClient, isTrace, logger, hub₁⟩ clock₁ ctx).err
        = (Destroy env₂ ⟨grpcClient, isTrace, logger, hub₂⟩ clock₂ ctx).err)
    ∧ ((GetConfig env₁ ⟨grpcClient, isTrace, logger, hub₁⟩ clock₁ ctx configID).value
        = (GetConfig env₂ ⟨grpcClient, isTrace, logger, hub₂⟩ clock₂ ctx configID).value
      ∧ (GetConfig env₁ ⟨grpcClient, isTrace, logger, hub₁⟩ clock₁ ctx configID).err
        = (GetConfig env₂ ⟨grpcClient, isTrace, logger, hub₂⟩ clock₂ ctx configID).err)
    ∧ ((GetConfigList env₁ ⟨grpcClient, isTrace, logger, hub₁⟩ clock₁ ctx).value
        = (GetConfigList env₂ ⟨grpcClient, isTrace, logger, hub₂⟩ clock₂ ctx).value
      ∧ (GetConfigList env₁ ⟨grpcClient, isTrace, logger, hub₁⟩ clock₁ ctx).err
        = (GetConfigList env₂ ⟨grpcClient, isTrace, logger, hub₂⟩ clock₂ ctx).err)
    ∧ ((GetDefaultConfigID env₁ ⟨grpcClient, isTrace, logger, hub₁⟩ clock₁ ctx).value
        = (GetDefaultConfigID env₂ ⟨grpcClient, isTrace, logger, hub₂⟩ clock₂ ctx).value
      ∧ (GetDefaultConfigID env₁ ⟨grpcClient, isTrace, logger, hub₁⟩ clock₁ ctx).err
        = (GetDefaultConfigID env₂ ⟨grpcClient, isTrace, logger, hub₂⟩ clock₂ ctx).err)
    ∧ ((Init env₁ ⟨grpcClient, isTrace, logger, hub₁⟩ clock₁ ctx moduleName iniParams
          verboseLogging).err
        = (Init env₂ ⟨grpcClient, isTrace, logger, hub₂⟩ clock₂ ctx moduleName iniParams
          verboseLogging).err)
    ∧ ((ReplaceDefaultConfigID env₁ ⟨grpcClient, isTrace, logger, hub₁⟩ clock₁ ctx
          oldConfigID newConfigID).err
        = (ReplaceDefaultConfigID env₂ ⟨grpcClient, isTrace, logger, hub₂⟩ clock₂ ctx
          oldConfigID newConfigID).err)
    ∧ ((SetDefaultConfigID env₁ ⟨grpcClient, isTrace, logger, hub₁⟩ clock₁ ctx configID).err
        = (SetDefaultConfigID env₂ ⟨grpcClient, isTrace, logger, hub₂⟩ clock₂ ctx
          configID).err) := by
  refine ⟨⟨?_, ?_⟩, ?_, ⟨?_, ?_⟩, ⟨?_, ?_⟩, ⟨?_, ?_⟩, ?_, ?_, ?_⟩
  · simp [AddConfig]
  · simp [AddConfig]
  · simp [Destroy]
  · simp [GetConfig]
  · simp [GetConfig]
  · simp [GetConfigList]
  · simp [GetConfigList]
  · simp [GetDefaultConfigID]
  · simp [GetDefaultConfigID]
  · simp [Init]
  · simp [ReplaceDefaultConfigID]
  · simp [SetDefaultConfigID]

/-! ## C6 and C7: the notification payload -/

theorem AddConfig_notifications {H : Type} (env : Env H) (client : G2configmgrClient H)
    (clock : Clock) (ctx : Context) (configStr configComments : String) (hub : H)
    (h : client.observers = some hub) :
    notifications (AddConfig env client clock ctx configStr configComments).effects
      = [notify env hub clock.notifyTime ctx 8001
          (client.GrpcClient.AddConfig ctx
            { ConfigStr := configStr, ConfigComments := configComments }).2
          [("configComments", configComments)]] := by
  simp [AddConfig, goNotify_eq, notifications, h]

theorem Destroy_notifications {H : Type} (env : Env H) (client : G2configmgrClient H)
    (clock : Clock) (ctx : Context) (hub : H) (h : client.observers = some hub) :
    notifications (Destroy env client clock ctx).effects
      = [notify env hub clock.notifyTime ctx 8002 (client.GrpcClient.Destroy ctx {}).2 []] := by
  simp [Destroy, goNotify_eq, notifications, h]

theorem GetConfig_notifications {H : Type} (env : Env H) (client : G2configmgrClient H)
    (clock : Clock) (ctx : Context) (configID : Int) (hub : H)
    (h : client.observers = some hub) :
    notifications (GetConfig env client clock ctx configID).effects
      = [notify env hub clock.notifyTime ctx 8003
          (client.GrpcClient.GetConfig ctx { ConfigID := configID }).2 []] := by
  simp [GetConfig, goNotify_eq, notifications, h]

theorem GetConfigList_notifications {H : Type} (env : Env H) (client : G2configmgrClient H)
    (clock : Clock) (ctx : Context) (hub : H) (h : client.observers = some hub) :
    notifications (GetConfigList env client clock ctx).effects
      = [notify env hub clock.notifyTime ctx 8004
          (client.GrpcClient.GetConfigList ctx {}).2 []] := by
  simp [GetConfigList, goNotify_eq, notifications, h]

theorem GetDefaultConfigID_notifications {H : Type} (env : Env H)
    (client : G2configmgrClient H) (clock : Clock) (ctx : Context) (hub : H)
    (h : client.observers = some hub) :
    notifications (GetDefaultConfigID env client clock ctx).effects
      = [notify env hub clock.notifyTime ctx 8005
          (client.GrpcClient.GetDefaultConfigID ctx {}).2 []] := by
  simp [GetDefaultConfigID, goNotify_eq, notifications, h]

theorem Init_notifications {H : Type} (env : Env H) (client : G2configmgrClient H)
    (clock : Clock) (ctx : Context) (moduleName iniParams : String) (verboseLogging : Int)
    (hub : H) (h : client.observers = some hub) :
    notifications (Init env client clock ctx moduleName iniParams verboseLogging).effects
      = [notify env hub clock.notifyTime ctx 8006
          (client.GrpcClient.Init ctx
            { ModuleName := moduleName, IniParams := iniParams,
              VerboseLogging := int32 verboseLogging }).2
          [("iniParams", iniParams), ("moduleName", moduleName),
            ("verboseLogging", FormatInt verboseLogging)]] := by
  simp [Init, goNotify_eq, notifications, h]

theorem ReplaceDefaultConfigID_notifications {H : Type} (env : Env H)
    (client : G2configmgrClient H) (clock : Clock) (ctx : Context)
    (oldConfigID newConfigID : Int) (hub : H) (h : client.observers = some hub) :
    notifications
        (ReplaceDefaultConfigID env client clock ctx oldConfigID newConfigID).effects
      = [notify env hub clock.notifyTime ctx 8007
          (client.GrpcClient.ReplaceDefaultConfigID ctx
            { OldConfigID := oldConfigID, NewConfigID := newConfigID }).2
          [("newConfigID", FormatInt newConfigID)]] := by
  simp [ReplaceDefaultConfigID, goNotify_eq, notifications, h]

theorem SetDefaultConfigID_notifications {H : Type} (env : Env H)
    (client : G2configmgrClient H) (clock : Clock) (ctx : Context) (configID : Int) (hub : H)
    (h : client.observers = some hub) :
    notifications (SetDefaultConfigID env client clock ctx configID).effects
      = [notify env hub clock.notifyTime ctx 8008
          (client.GrpcClient.SetDefaultConfigID ctx { ConfigID := configID }).2
          [("configID", FormatInt configID)]] := by
  simp [SetDefaultConfigID, goNotify_eq, notifications, h]

theorem messageIdOf_single (effects : List Effect) (notification : Notification)
    (messageId : String) (h : notifications effects = [notification])
    (hid : getKey notification.details "messageId" = some messageId) :
    messageIdOf effects = some messageId := by
  unfold messageIdOf
  rw [h]
  exact hid

/-- C7: on a client with a hub, each of the eight forwarding operations builds one
notification whose payload has subjectId = decimal ProductId, messageId = the identifier
of the operation (8001 to 8008), messageTime = decimal nanoseconds of the clock reading,
and an error field exactly when the transport's error is not nil, holding that error's
text; the eight message identifiers are pairwise different. -/
theorem payload_carries_common_fields {H : Type} (env : Env H)
    (grpcClient : G2ConfigMgrClient) (isTrace : Bool) (logger : Option MessageLogger)
    (hub : H) (clock : Clock) (ctx : Context)
    (configStr configComments moduleName iniParams : String)
    (configID oldConfigID newConfigID verboseLogging : Int) :
    (∃ notification,
        notifications (AddConfig env ⟨grpcClient, isTrace, logger, some hub⟩ clock ctx
          configStr configComments).effects = [notification]
        ∧ hasCommonFields env clock "8001"
          (grpcClient.AddConfig ctx
            { ConfigStr := configStr, ConfigComments := configComments }).2 notification)
    ∧ (∃ notification,
        notifications (Destroy env ⟨grpcClient, isTrace, logger, some hub⟩ clock
          ctx).effects = [notification]
        ∧ hasCommonFields env clock "8002" (grpcClient.Destroy ctx {}).2 notification)
    ∧ (∃ notification,
        notifications (GetConfig env ⟨grpcClient, isTrace, logger, some hub⟩ clock ctx
          configID).effects = [notification]
        ∧ hasCommonFields env clock "8003"
          (grpcClient.GetConfig ctx { ConfigID := configID }).2 notification)
    ∧ (∃ notification,
        notifications (GetConfigList env ⟨grpcClient, isTrace, logger, some hub⟩ clock
          ctx).effects = [notification]
        ∧ hasCommonFields env clock "8004" (grpcClient.GetConfigList ctx {}).2 notification)
    ∧ (∃ notification,
        notifications (GetDefaultConfigID env ⟨grpcClient, isTrace, logger, some hub⟩ clock
          ctx).effects = [notification]
        ∧ hasCommonFields env clock "8005" (grpcClient.GetDefaultConfigID ctx {}).2
          notification)
    ∧ (∃ notification,
        notifications (Init env ⟨grpcClient, isTrace, logger, some hub⟩ clock ctx moduleName
          iniParams verboseLogging).effects = [notification]
        ∧ hasCommonFields env clock "8006"
          (grpcClient.Init ctx
            { ModuleName := moduleName, IniParams := iniParams,
              VerboseLogging := int32 verboseLogging }).2 notification)
    ∧ (∃ notification,
        notifications (ReplaceDefaultConfigID env ⟨grpcClient, isTrace, logger, some hub⟩
          clock ctx oldConfigID newConfigID).effects = [notification]
        ∧ hasCommonFields env clock "8007"
          (grpcClient.ReplaceDefaultConfigID ctx
            { OldConfigID := oldConfigID, NewConfigID := newConfigID }).2 notification)
    ∧ (∃ notification,
        notifications (SetDefaultConfigID env ⟨grpcClient, isTrace, logger, some hub⟩ clock
          ctx configID).effects = [notification]
        ∧ hasCommonFields env clock "8008"
          (grpcClient.SetDefaultConfigID ctx { ConfigID := configID }).2 notification)
    ∧ List.Nodup
        [messageIdOf (AddConfig env ⟨grpcClient, isTrace, logger, some hub⟩ clock ctx
            configStr configComments).effects,
          messageIdOf (Destroy env ⟨grpcClient, isTrace, logger, some hub⟩ clock ctx).effects,
          messageIdOf (GetConfig env ⟨grpcClient, isTrace, logger, some hub⟩ clock ctx
            configID).effects,
          messageIdOf (GetConfigList env ⟨grpcClient, isTrace, logger, some hub⟩ clock
            ctx).effects,
          messageIdOf (GetDefaultConfigID env ⟨grpcClient, isTrace, logger, some hub⟩ clock
            ctx).effects,
          messageIdOf (Init env ⟨grpcClient, isTrace, logger, some hub⟩ clock ctx moduleName
            iniParams verboseLogging).effects,
          messageIdOf (ReplaceDefaultConfigID env ⟨grpcClient, isTrace, logger, some hub⟩
            clock ctx oldConfigID newConfigID).effects,
          messageIdOf (SetDefaultConfigID env ⟨grpcClient, isTrace, logger, some hub⟩ clock
            ctx configID).effects] := by
  have h1 := AddConfig_notifications env ⟨grpcClient, isTrace, logger, some hub⟩ clock ctx
    configStr configComments hub rfl
  have h2 := Destroy_notifications env ⟨grpcClient, isTrace, logger, some hub⟩ clock ctx
    hub rfl
  have h3 := GetConfig_notifications env ⟨grpcClient, isTrace, logger, some hub⟩ clock ctx
    configID hub rfl
  have h4 := GetConfigList_notifications env ⟨grpcClient, isTrace, logger, some hub⟩ clock
    ctx hub rfl
  have h5 := GetDefaultConfigID_notifications env ⟨grpcClient, isTrace, logger, some hub⟩
    clock ctx hub rfl
  have h6 := Init_notifications env ⟨grpcClient, isTrace, logger, some hub⟩ clock ctx
    moduleName iniParams verboseLogging hub rfl
  have h7 := ReplaceDefaultConfigID_notifications env
    ⟨grpcClient, isTrace, logger, some hub⟩ clock ctx oldConfigID newConfigID hub rfl
  have h8 := SetDefaultConfigID_notifications env ⟨grpcClient, isTrace, logger, some hub⟩
    clock ctx configID hub rfl
  have f1 := notify_common_fields env hub clock ctx 8001
    (grpcClient.AddConfig ctx { ConfigStr := configStr, ConfigComments := configComments }).2
    [("configComments", configComments)] (by simp [getKey])
  have f2 := notify_common_fields env hub clock ctx 8002 (grpcClient.Destroy ctx {}).2 []
    (by simp [getKey])
  have f3 := notify_common_fields env hub clock ctx 8003
    (grpcClient.GetConfig ctx { ConfigID := configID }).2 [] (by simp [getKey])
  have f4 := notify_common_fields env hub clock ctx 8004 (grpcClient.GetConfigList ctx {}).2
    [] (by simp [getKey])
  have f5 := notify_common_fields env hub clock ctx 8005
    (grpcClient.GetDefaultConfigID ctx {}).2 [] (by simp [getKey])
  have f6 := notify_common_fields env hub clock ctx 8006
    (grpcClient.Init ctx
      { ModuleName := moduleName, IniParams := iniParams,
        VerboseLogging := int32 verboseLogging }).2
    [("iniParams", iniParams), ("moduleName", moduleName),
      ("verboseLogging", FormatInt verboseLogging)] (by simp [getKey])
  have f7 := notify_common_fields env hub clock ctx 8007
    (grpcClient.ReplaceDefaultConfigID ctx
      { OldConfigID := oldConfigID, NewConfigID := newConfigID }).2
    [("newConfigID", FormatInt newConfigID)] (by simp [getKey])
  have f8 := notify_common_fields env hub clock ctx 8008
    (grpcClient.SetDefaultConfigID ctx { ConfigID := configID }).2
    [("configID", FormatInt configID)] (by simp [getKey])
  have e1 : FormatInt 8001 = "8001" := by decide
  have e2 : FormatInt 8002 = "8002" := by decide
  have e3 : FormatInt 8003 = "8003" := by decide
  have e4 : FormatInt 8004 = "8004" := by decide
  have e5 : FormatInt 8005 = "8005" := by decide
  have e6 : FormatInt 8006 = "8006" := by decide
  have e7 : FormatInt 8007 = "8007" := by decide
  have e8 : FormatInt 8008 = "8008" := by decide
  rw [e1] at f1
  rw [e2] at f2
  rw [e3] at f3
  rw [e4] at f4
  rw [e5] at f5
  rw [e6] at f6
  rw [e7] at f7
  rw [e8] at f8
  refine ⟨⟨_, h1, f1⟩, ⟨_, h2, f2⟩, ⟨_, h3, f3⟩, ⟨_, h4, f4⟩, ⟨_, h5, f5⟩, ⟨_, h6, f6⟩,
    ⟨_, h7, f7⟩, ⟨_, h8, f8⟩, ?_⟩
  rw [messageIdOf_single _ _ _ h1 f1.2.1, messageIdOf_single _ _ _ h2 f2.2.1,
    messageIdOf_single _ _ _ h3 f3.2.1, messageIdOf_single _ _ _ h4 f4.2.1,
    messageIdOf_single _ _ _ h5 f5.2.1, messageIdOf_single _ _ _ h6 f6.2.1,
    messageIdOf_single _ _ _ h7 f7.2.1, messageIdOf_single _ _ _ h8 f8.2.1]
  decide

/-! ## C8 and C9: the hub and the listener set -/

/-- C10: for each of the eight forwarding operations and SetLogLevel, the log calls of a
run are the entry identifier followed by the exit identifier, each once, when tracing is
enabled (1/2, 5/6, 7/8, 9/10, 11/12, 17/18, 19/20, 21/22, 23/24: exit = entry + 1), and
none when tracing is disabled; with tracing enabled no identifier occurs in the logs of two
operations. -/
theorem trace_identifiers {H : Type} (env : Env H) (client : G2configmgrClient H)
    (clock : Clock) (ctx : Context) (configStr configComments moduleName iniParams : String)
    (configID oldConfigID newConfigID verboseLogging : Int) (logLevel : Level) :
    logIds (AddConfig env client clock ctx configStr configComments).effects
      = (if client.isTrace then [1, 2] else [])
    ∧ logIds (Destroy env client clock ctx).effects
      = (if client.isTrace then [5, 6] else [])
    ∧ logIds (GetConfig env client clock ctx configID).effects
      = (if client.isTrace then [7, 8] else [])
    ∧ logIds (GetConfigList env client clock ctx).effects
      = (if client.isTrace then [9, 10] else [])
    ∧ logIds (GetDefaultConfigID env client clock ctx).effects
      = (if client.isTrace then [11, 12] else [])
    ∧ logIds (Init env client clock ctx moduleName iniParams verboseLogging).effects
      = (if client.isTrace then [17, 18] else [])
    ∧ logIds (ReplaceDefaultConfigID env client clock ctx oldConfigID newConfigID).effects
      = (if client.isTrace then [19, 20] else [])
    ∧ logIds (SetDefaultConfigID env client clock ctx configID).effects
      = (if client.isTrace then [21, 22] else [])
    ∧ logIds (SetLogLevel env client clock ctx logLevel).effects
      = (if client.isTrace then [23, 24] else [])
    ∧ List.Nodup
        (logIds (AddConfig env { client with isTrace := true } clock ctx configStr
            configComments).effects
          ++ logIds (Destroy env { client with isTrace := true } clock ctx).effects
          ++ logIds (GetConfig env { client with isTrace := true } clock ctx configID).effects
          ++ logIds (GetConfigList env { client with isTrace := true } clock ctx).effects
          ++ logIds (GetDefaultConfigID env { client with isTrace := true } clock ctx).effects
          ++ logIds (Init env { client with isTrace := true } clock ctx moduleName iniParams
            verboseLogging).effects
          ++ logIds (ReplaceDefaultConfigID env { client with isTrace := true } clock ctx
            oldConfigID newConfigID).effects
          ++ logIds (SetDefaultConfigID env { client with isTrace := true } clock ctx
            configID).effects
          ++ logIds (SetLogLevel env { client with isTrace := true } clock ctx
            logLevel).effects) := by
  refine ⟨?_, ?_, ?_, ?_, ?_, ?_, ?_, ?_, ?_, ?_⟩
  · cases h : client.isTrace <;> simp [AddConfig, logIds, h]
  · cases h : client.isTrace <;> simp [Destroy, logIds, h]
  · cases h : client.isTrace <;> simp [GetConfig, logIds, h]
  · cases h : client.isTrace <;> simp [GetConfigList, logIds, h]
  · cases h : client.isTrace <;> simp [GetDefaultConfigID, logIds, h]
  · cases h : client.isTrace <;> simp [Init, logIds, h]
  · cases h : client.isTrace <;> simp [ReplaceDefaultConfigID, logIds, h]
  · cases h : client.isTrace <;> simp [SetDefaultConfigID, logIds, h]
  · cases h : client.isTrace <;> simp [SetLogLevel, logIds, h]
  · simp [AddConfig, Destroy, GetConfig, GetConfigList, GetDefaultConfigID, Init,
      ReplaceDefaultConfigID, SetDefaultConfigID, SetLogLevel, logIds]

/-! ## C11 and C12: SetLogLevel and UnregisterObserver -/

/-- C11: for every log level and every client, SetLogLevel returns a nil error, sends no
request to the transport, spawns no notification, and leaves the transport handle, the
trace flag and the listener hub of the client as they were. -/
theorem SetLogLevel_is_noop {H : Type} (env : Env H) (client : G2configmgrClient H)
    (clock : Clock) (ctx : Context) (logLevel : Level) :
    (SetLogLevel env client clock ctx logLevel).err = none
    ∧ rpcs (SetLogLevel env client clock ctx logLevel).effects = []
    ∧ notifications (SetLogLevel env client clock ctx logLevel).effects = []
    ∧ (SetLogLevel env client clock ctx logLevel).client.GrpcClient = client.GrpcClient
    ∧ (SetLogLevel env client clock ctx logLevel).client.isTrace = client.isTrace
    ∧ (SetLogLevel env client clock ctx logLevel).client.observers = client.observers := by
  refine ⟨?_, ?_, ?_, ?_, ?_, ?_⟩
  · simp [SetLogLevel]
  · simp [SetLogLevel]
  · simp [SetLogLevel]
  · simp [SetLogLevel]
  · simp [SetLogLevel]
  · simp [SetLogLevel]

/-- C12: UnregisterObserver returns a value exactly when the client has a hub. Without a
hub (a new client, or a client whose last listener was unregistered and whose hub was
dropped) the call fails with a nil dereference. With a hub whose unregister step returns an
error, the call returns that error and keeps the hub as that step left it, whether or not
the hub still reports observers. -/
theorem UnregisterObserver_requires_hub {H : Type} (env : Env H)
    (client : G2configmgrClient H) (grpcClient : G2ConfigMgrClient) (isTrace : Bool)
    (ctx : Context) (observer : Observer) :
    ((∃ outcome, UnregisterObserver env client ctx observer = Except.ok outcome)
        ↔ client.observers ≠ none)
    ∧ (client.observers = none →
        UnregisterObserver env client ctx observer
          = Except.error "invalid memory address or nil pointer dereference")
    ∧ UnregisterObserver env (newClient grpcClient isTrace) ctx observer
        = Except.error "invalid memory address or nil pointer dereference"
    ∧ (∀ outcome ctx' observer',
        UnregisterObserver env client ctx observer = Except.ok outcome →
        outcome.client.observers = none →
        UnregisterObserver env outcome.client ctx' observer'
          = Except.error "invalid memory address or nil pointer dereference")
    ∧ (∀ hub e, client.observers = some hub →
        (env.subject.UnregisterObserver hub ctx observer).2 = some e →
        ∃ outcome, UnregisterObserver env client ctx observer = Except.ok outcome
          ∧ outcome.err = some e
          ∧ outcome.client.observers
            = some (env.subject.UnregisterObserver hub ctx observer).1) := by
  refine ⟨?_, ?_, ?_, ?_, ?_⟩
  · constructor
    · rintro ⟨outcome, h⟩ hnone
      simp [UnregisterObserver, hnone] at h
    · intro h
      cases hobs : client.observers with
      | none => exact absurd hobs h
      | some hub =>
        unfold UnregisterObserver
        simp only [hobs]
        cases (env.subject.UnregisterObserver hub ctx observer).2 with
        | some e => exact ⟨_, rfl⟩
        | none =>
          dsimp only
          split
          · exact ⟨_, rfl⟩
          · exact ⟨_, rfl⟩
  · intro h
    simp [UnregisterObserver, h]
  · simp [UnregisterObserver, newClient]
  · intro outcome ctx' observer' _ hnone
    simp [UnregisterObserver, hnone]
  · intro hub e hobs herr
    refine ⟨⟨(), some e, [], ⟨client.GrpcClient, client.isTrace, client.logger,
      some (env.subject.UnregisterObserver hub ctx observer).1⟩⟩, ?_, rfl, rfl⟩
    simp [UnregisterObserver, hobs, herr]

/-- Witness of C12: a client holding observer1; unregistering observer2 fails in the hub
and the hub stays; unregistering observer1 drops the hub, and the next call fails. -/
theorem UnregisterObserver_requires_hub_witness :
    (∃ outcome,
        UnregisterObserver strictEnv ⟨acceptingStub 7 "doc", false, none, some [observer1]⟩
          { token := 0 } observer2 = Except.ok outcome
        ∧ outcome.err = some { Error := "observer not registered" }
        ∧ outcome.client.observers = some [observer1])
    ∧ UnregisterObserver strictEnv ⟨acceptingStub 7 "doc", false, none, none⟩
        { token := 0 } observer1
      = Except.error "invalid memory address or nil pointer dereference" := by
  have h := UnregisterObserver_requires_hub strictEnv
    ⟨acceptingStub 7 "doc", false, none, some [observer1]⟩ (acceptingStub 7 "doc") false
    { token := 0 } observer2
  have h' := UnregisterObserver_requires_hub strictEnv
    ⟨acceptingStub 7 "doc", false, none, none⟩ (acceptingStub 7 "doc") false
    { token := 0 } observer1
  exact ⟨h.2.2.2.2 [observer1] { Error := "observer not registered" } rfl (by decide),
    h'.2.1 rfl⟩

end G2configmgrclient
